import Mathlib

/-!
Verification of the NEXUS Trader signal-monitoring core against its
natural-language specification.

The definitions below are a shallow embedding of the Python sources:

* `friedRate`, `moodIndex`, `computeTrend` embed the mood computation of
  `MarketSentimentService.get_market_sentiment`
  (backend/app/services/market_sentiment.py).  Python floats are modelled
  as rationals; `round(x, 1)` is modelled by `round1` (round half up; the
  concrete inputs used in witnesses and counterexamples are never at a
  rounding tie, where CPython's bankers rounding could differ).
* `createSignal` / `analyze` embed `AgentService._create_signal` and
  `AgentService.analyze` (backend/app/services/agent_service.py) as explicit
  state passing over `AgentState`; wall-clock times are rationals in seconds.
* `TYPE_MAP`, `SEVERITY_MAP`, `EMOJI_MAP`, `mkAlert`, `scan_all` embed the
  classification tables and `AnomalyDetector.scan_all`
  (backend/app/services/anomaly_service.py).
* `ttlCall` embeds one call through the `ttl_cache` wrapper
  (backend/app/utils/cache.py) for a fixed argument key: the state is the
  cache slot for that key, the wrapped call's outcome is passed explicitly
  as an `Except`, and the returned boolean records whether the wrapped
  function was invoked.
* `loopStep` / `loopRun` embed `AgentService._loop` as a step function over
  a script of per-cycle outcomes.
-/

/-! ## Sentiment computation (market_sentiment.py) -/

/-- Clamp to the interval `[0, 100]`; embeds `max(0, min(100, mood))`. -/
def clamp0100 (x : ℚ) : ℚ := max 0 (min 100 x)

/-- Round to one decimal place; embeds `round(mood, 1)`. -/
def round1 (x : ℚ) : ℚ := ((round (x * 10) : ℤ) : ℚ) / 10

/-- Fried-board rate: `zb / (zt + zb) * 100` when some board was attempted,
`0` otherwise; embeds the `fried_rate` computation. -/
def friedRate (zt zb : ℕ) : ℚ :=
  if 0 < zt + zb then (zb : ℚ) / ((zt : ℚ) + (zb : ℚ)) * 100 else 0

/-- Mood index as computed by `get_market_sentiment`:
`mood = 50 + zt/5 - fried_rate*0.5 + premium*2`, clamped to `[0,100]` and
rounded to one decimal. -/
def moodIndex (zt zb : ℕ) (premium : ℚ) : ℚ :=
  round1 (clamp0100 (50 + (zt : ℚ) / 5 - friedRate zt zb * 0.5 + premium * 2))

/-- Mood formula exactly as claimed by the spec sentence for C1:
`clamp(50 + Z/5 - B/(Z+B)*50*0.5 + P*2, 0, 100)`, fried term `0` when
`Z+B = 0`.  Written from the spec's words, for comparison with `moodIndex`. -/
def specMoodC1 (zt zb : ℕ) (p : ℚ) : ℚ :=
  clamp0100 (50 + (zt : ℚ) / 5 -
    (if zt + zb = 0 then 0 else (zb : ℚ) / ((zt : ℚ) + (zb : ℚ))) * 50 * 0.5 + p * 2)

/-- Amended mood formula: the fried term is `B/(Z+B)*100*0.5` (the code's
fried *rate* is a percentage), and the result is rounded to one decimal. -/
def specMoodAmendedC1 (zt zb : ℕ) (p : ℚ) : ℚ :=
  round1 (clamp0100 (50 + (zt : ℚ) / 5 -
    (if zt + zb = 0 then 0 else (zb : ℚ) / ((zt : ℚ) + (zb : ℚ))) * 100 * 0.5 + p * 2))

/-- Trend classification against the most recently persisted mood; embeds the
`trend` block of `get_market_sentiment` (hysteresis band `0.5`). -/
def computeTrend (prev : Option ℚ) (mood : ℚ) : String :=
  match prev with
  | none => "flat"
  | some p => if p + 0.5 < mood then "up" else if mood < p - 0.5 then "down" else "flat"

/-! ## Signal store and agent rule engine (agent_service.py)

Wall-clock instants are modelled as integer seconds.  `AgentState` carries the
persisted `SignalRecord` rows together with the notification broadcasts and
LLM escalations issued so far, so that a dedup no-op is visibly a no-op on
all three. -/

structure SignalRec where
  type : String
  level : String
  message : String
  timestamp : ℤ
deriving DecidableEq

structure AgentState where
  signals : List SignalRec
  broadcasts : List SignalRec
  escalations : List SignalRec
deriving DecidableEq

def emptyAgent : AgentState := ⟨[], [], []⟩

/-- Dedup predicate of `_create_signal`: same type, same message, created
within the last ten minutes (`timestamp >= now - 10min`). -/
def dedupMatches (ty msg : String) (tenMinsAgo : ℤ) (s : SignalRec) : Prop :=
  s.type = ty ∧ s.message = msg ∧ tenMinsAgo ≤ s.timestamp

instance (ty msg : String) (t : ℤ) (s : SignalRec) : Decidable (dedupMatches ty msg t s) := by
  unfold dedupMatches
  infer_instance

/-- Embeds `AgentService._create_signal`: if a signal with the same
`(type, message)` exists within the 10-minute window, no-op; otherwise
persist, broadcast, and (for warning/critical) trigger LLM escalation. -/
def createSignal (st : AgentState) (now : ℤ) (ty lvl msg : String) : AgentState :=
  if ∃ s ∈ st.signals, dedupMatches ty msg (now - 600) s then st
  else
    let sig : SignalRec := ⟨ty, lvl, msg, now⟩
    { signals := st.signals ++ [sig]
      broadcasts := st.broadcasts ++ [sig]
      escalations :=
        if lvl = "critical" ∨ lvl = "warning" then st.escalations ++ [sig]
        else st.escalations }

/-- Number of persisted signals with the given `(type, message)` pair. -/
def countSig (st : AgentState) (ty msg : String) : ℕ :=
  (st.signals.filter (fun s => decide (s.type = ty ∧ s.message = msg))).length

/-- Latest sentiment row as read back by `AgentService.analyze`. -/
structure SentimentSnapshot where
  mood_index : ℚ
  fried_rate : ℚ
  trend : String
deriving DecidableEq

/-- One-decimal fixed-point formatting; embeds the f-string `:.1f` used in
signal messages (faithful for the nonnegative, non-tie values that
`analyze` produces; mood and fried rate are always in `[0, 100]`). -/
def fmt1 (q : ℚ) : String :=
  toString (round (q * 10) / 10) ++ "." ++ toString (round (q * 10) % 10)

/-- Embeds `AgentService.analyze`: rules A (overheating), B (fried-board
risk), C (recovery), D (anomaly bursts), applied in source order.
`recentTypes` lists the `type` fields of the `AnomalyRecord` rows of the
last five minutes. -/
def analyze (st : AgentState) (now : ℤ) (sentiment : Option SentimentSnapshot)
    (recentTypes : List String) : AgentState :=
  match sentiment with
  | none => st
  | some s =>
    let st1 := if 80 < s.mood_index then
        createSignal st now "sentiment_spike" "warning"
          ("Market is Overheating! Mood Index: " ++ fmt1 s.mood_index)
      else st
    let st2 := if 30 < s.fried_rate then
        createSignal st1 now "risk_alert" "critical"
          ("High Risk Alert! Fried Board Rate: " ++ fmt1 s.fried_rate ++ "%")
      else st1
    let st3 := if s.trend = "up" ∧ s.mood_index < 50 then
        createSignal st2 now "recovery_sign" "info" "Market is recovering. Trend is Up."
      else st2
    let rockets := (recentTypes.filter (fun t => t == "rocket")).length
    let dives := (recentTypes.filter (fun t => t == "dive")).length
    let st4 := if 5 < rockets then
        createSignal st3 now "anomaly_burst" "info"
          ("Rocket Burst! " ++ toString rockets ++ " stocks skyrocketing in last 5 mins.")
      else st3
    let st5 := if 5 < dives then
        createSignal st4 now "anomaly_burst" "warning"
          ("Dive Burst! " ++ toString dives ++ " stocks diving in last 5 mins.")
      else st4
    st5

/-! ## Anomaly classification and scan (anomaly_service.py) -/

/-- Raw EastMoney anomaly category to internal type; embeds `TYPE_MAP`. -/
def TYPE_MAP : List (String × String) :=
  [("火箭发射", "rocket"), ("快速反弹", "rocket"), ("封涨停板", "rocket"),
   ("大笔买入", "big_order_buy"), ("加速下跌", "dive"), ("高台跳水", "dive"),
   ("封跌停板", "dive"), ("大笔卖出", "big_order_sell"), ("打开涨停板", "dive"),
   ("打开跌停板", "rocket"), ("有大买盘", "big_order_buy"), ("有大卖盘", "big_order_sell"),
   ("竞价上涨", "rocket"), ("竞价下跌", "dive")]

/-- Internal type to display emoji; embeds `EMOJI_MAP`. -/
def EMOJI_MAP : List (String × String) :=
  [("rocket", "🚀"), ("big_order_buy", "💰"), ("dive", "☢️"), ("big_order_sell", "💸")]

/-- Raw EastMoney anomaly category to severity; embeds `SEVERITY_MAP`. -/
def SEVERITY_MAP : List (String × String) :=
  [("火箭发射", "high"), ("快速反弹", "medium"), ("封涨停板", "high"),
   ("大笔买入", "medium"), ("加速下跌", "high"), ("高台跳水", "high"),
   ("封跌停板", "high"), ("大笔卖出", "medium"), ("打开涨停板", "high"),
   ("打开跌停板", "medium"), ("有大买盘", "medium"), ("有大卖盘", "medium"),
   ("竞价上涨", "low"), ("竞价下跌", "low")]

/-- Embeds `TYPE_MAP.get(change_type, "rocket")`. -/
def internalTypeOf (raw : String) : String := (TYPE_MAP.lookup raw).getD "rocket"

/-- Embeds `SEVERITY_MAP.get(change_type, "low")`. -/
def severityOf (raw : String) : String := (SEVERITY_MAP.lookup raw).getD "low"

/-- Round to two decimal places; embeds `round(x, 2)`. -/
def round2 (x : ℚ) : ℚ := ((round (x * 100) : ℤ) : ℚ) / 100

/-- Signed one-decimal formatting; embeds the f-string `:+.1f`. -/
def fmtSigned1 (q : ℚ) : String := if q < 0 then "-" ++ fmt1 (-q) else "+" ++ fmt1 q

/-- Integer formatting; embeds the f-string `:.0f`. -/
def fmtAmount0 (q : ℚ) : String := toString (round q)

/-- One already-extracted row of the EastMoney anomaly stream, after the
field extraction and `_parse_info` steps of the per-row loop succeeded
(`price`, `change_pct`, `amount` default to `0` when `_parse_info` finds
fewer fields).  `eventTime` is the epoch value of `dt_obj.timestamp()`. -/
structure ChangeRow where
  change_type : String
  code : String
  name : String
  time_str : String
  price : ℚ
  change_pct : ℚ
  amount : ℚ
  eventTime : ℤ
deriving DecidableEq

/-- A raw row as iterated by `scan_all`: `bad` stands for a row whose field
extraction or timestamp parsing raises (caught by the per-row `except`). -/
inductive RawChange where
  | bad
  | good (r : ChangeRow)
deriving DecidableEq

/-- The well-formed rows, in order. -/
def goodRows (rows : List RawChange) : List RawChange :=
  rows.filter (fun r => match r with | RawChange.bad => false | RawChange.good _ => true)

/-- One formatted alert dict of `scan_all` (the error element uses `""`/`0`
for the keys it does not carry).  Python float repr in the message is
modelled by rational `toString`; no theorem depends on message text. -/
structure Alert where
  type : String
  change_type : String
  code : String
  name : String
  price : ℚ
  change_pct : ℚ
  amount : ℚ
  message : String
  severity : String
  time : String
  ts : ℤ
deriving DecidableEq

/-- Embeds the per-row classification and message construction of
`scan_all`. -/
def mkAlert (r : ChangeRow) : Alert :=
  let internal := internalTypeOf r.change_type
  let sev := severityOf r.change_type
  let emoji := (EMOJI_MAP.lookup internal).getD "⚡"
  let msg :=
    if internal = "rocket" then
      emoji ++ " " ++ r.change_type ++ "！" ++ r.name ++ "(" ++ r.code ++ ") 涨幅 " ++
        fmtSigned1 r.change_pct ++ "%，现价 ¥" ++ toString r.price
    else if internal = "dive" then
      emoji ++ " " ++ r.change_type ++ "！" ++ r.name ++ "(" ++ r.code ++ ") 跌幅 " ++
        fmtSigned1 r.change_pct ++ "%，现价 ¥" ++ toString r.price
    else if internal = "big_order_buy" then
      emoji ++ " " ++ r.change_type ++ "！" ++ r.name ++ "(" ++ r.code ++ ") 成交额 " ++
        fmtAmount0 (r.amount / 10000) ++ "万，涨幅 " ++ fmtSigned1 r.change_pct ++ "%"
    else if internal = "big_order_sell" then
      emoji ++ " " ++ r.change_type ++ "！" ++ r.name ++ "(" ++ r.code ++ ") 成交额 " ++
        fmtAmount0 (r.amount / 10000) ++ "万，跌幅 " ++ fmtSigned1 r.change_pct ++ "%"
    else "⚡ " ++ r.change_type ++ "！" ++ r.name ++ "(" ++ r.code ++ ")"
  let time2 := if r.time_str.length = 5 then r.time_str ++ ":00" else r.time_str
  { type := internal, change_type := r.change_type, code := r.code, name := r.name,
    price := r.price, change_pct := round2 r.change_pct, amount := round2 r.amount,
    message := msg, severity := sev, time := time2, ts := r.eventTime }

/-- The degraded element appended when the fetch itself fails. -/
def errorAlert (e : String) (now : ℤ) : Alert :=
  { type := "error", change_type := "", code := "", name := "", price := 0,
    change_pct := 0, amount := 0, message := "扫描异常: " ++ e, severity := "low",
    time := "", ts := now }

inductive FilterMode where
  | all
  | watchlist
  | leaders
deriving DecidableEq

/-- Embeds the filter pre-load block of `scan_all`. -/
def filterCodesOf (mode : FilterMode) (watch leaders : List String) : Option (List String) :=
  match mode with
  | FilterMode.all => none
  | FilterMode.watchlist => some watch
  | FilterMode.leaders => some leaders

/-- Per-row outcome: skip a malformed row, classify and filter a good one. -/
def rowToAlert (filterCodes : Option (List String)) (r : RawChange) : Option Alert :=
  match r with
  | RawChange.bad => none
  | RawChange.good g =>
    match filterCodes with
    | none => some (mkAlert g)
    | some cs => if g.code ∈ cs then some (mkAlert g) else none

/-- Stable descending sort by `ts`; embeds `alerts.sort(key=ts, reverse=True)`. -/
def sortTsDesc (l : List Alert) : List Alert :=
  List.insertionSort (fun a b => b.ts ≤ a.ts) l

/-- Embeds `AnomalyDetector.scan_all`: early empty return for an empty
watchlist, a single degraded element when the fetch fails, per-row skip of
malformed rows, filtering, and the final descending sort by `ts`. -/
def scan_all (mode : FilterMode) (watch leaders : List String)
    (fetch : Except String (List RawChange)) (now : ℤ) : List Alert :=
  if mode = FilterMode.watchlist ∧ watch = [] then []
  else
    let alerts :=
      match fetch with
      | Except.ok rows => rows.filterMap (rowToAlert (filterCodesOf mode watch leaders))
      | Except.error e => [errorAlert e now]
    sortTsDesc alerts

/-! ## TTL cache (utils/cache.py) and degraded sentiment output

One call through the `ttl_cache` wrapper for a fixed argument key, with
wall-clock seconds as integers.  The wrapped call's outcome is the `Except`
argument; the result triple is (value returned to the caller, cache slot
after the call, whether the wrapped function was invoked). -/

def ttlMiss {V E : Type} (cache : Option (V × ℤ)) (now : ℤ) (f : Except E V) :
    Except E V × Option (V × ℤ) × Bool :=
  match f with
  | Except.ok v => (Except.ok v, some (v, now), true)
  | Except.error e =>
    match cache with
    | some (d, ts) => (Except.ok d, some (d, ts), true)
    | none => (Except.error e, none, true)

def ttlCall {V E : Type} (ttl : ℤ) (cache : Option (V × ℤ)) (now : ℤ) (f : Except E V) :
    Except E V × Option (V × ℤ) × Bool :=
  match cache with
  | some (d, ts) =>
    if now - ts < ttl then (Except.ok d, some (d, ts), false)
    else ttlMiss (some (d, ts)) now f
  | none => ttlMiss none now f

/-- Raw metric values of one successful acquisition inside
`get_market_sentiment` (limit-up pool size, fried pool size, limit-down pool
size, prior-day premium, Legu counts and activity). -/
structure RawMetrics where
  zt_count : ℕ
  zb_count : ℕ
  dt_count : ℕ
  premium_rate : ℚ
  up_count : ℕ
  down_count : ℕ
  flat_count : ℕ
  activity : ℚ
deriving DecidableEq

/-- The `metrics` sub-dict of the success payload (the fields the claims
touch). -/
structure MoodMetrics where
  mood_index : ℚ
  fried_rate : ℚ
  premium_rate : ℚ
  trend : String
deriving DecidableEq

/-- The payload returned by `get_market_sentiment`: the degraded dict has an
`error` string, no `metrics`, and zeroed counts. -/
structure SentimentOut where
  error : Option String
  metrics : Option MoodMetrics
  up_count : ℕ
  down_count : ℕ
  flat_count : ℕ
  limit_up_count : ℕ
  limit_down_count : ℕ
  temperature : ℚ
  activity : ℚ
deriving DecidableEq

/-- Embeds the body of `get_market_sentiment` given the acquisition outcome:
the outer `except` turns any fetch failure into the zeroed error dict
instead of raising. -/
def getMarketSentiment (fetch : Except String RawMetrics) (prevMood : Option ℚ) :
    SentimentOut :=
  match fetch with
  | Except.error e =>
    { error := some e, metrics := none, up_count := 0, down_count := 0, flat_count := 0,
      limit_up_count := 0, limit_down_count := 0, temperature := 0, activity := 0 }
  | Except.ok m =>
    let mood := moodIndex m.zt_count m.zb_count m.premium_rate
    { error := none
      metrics := some { mood_index := mood, fried_rate := friedRate m.zt_count m.zb_count,
                        premium_rate := m.premium_rate,
                        trend := computeTrend prevMood mood }
      up_count := m.up_count, down_count := m.down_count, flat_count := m.flat_count
      limit_up_count := m.zt_count, limit_down_count := m.dt_count
      temperature := mood, activity := m.activity }

/-- The explicit degraded result of the error path of
`get_market_sentiment`. -/
def degradedSentiment (e : String) : SentimentOut :=
  { error := some e, metrics := none, up_count := 0, down_count := 0, flat_count := 0,
    limit_up_count := 0, limit_down_count := 0, temperature := 0, activity := 0 }

/-! ## Scheduler loop (AgentService._loop) -/

/-- Outcome of one `await cls.analyze()` poll cycle. -/
inductive CycleOutcome where
  | ok
  | err (msg : String)
  | cancelled
deriving DecidableEq

/-- Whether the loop continues after a cycle: `CancelledError` breaks, any
other exception is logged and the loop goes on. -/
def loopStep : CycleOutcome → Bool
  | CycleOutcome.cancelled => false
  | _ => true

/-- Number of poll cycles executed on a script of cycle outcomes. -/
def loopRun : List CycleOutcome → ℕ
  | [] => 0
  | o :: rest => if loopStep o then 1 + loopRun rest else 1

/-! ## Basic bounds -/

theorem clamp0100_nonneg (x : ℚ) : 0 ≤ clamp0100 x := le_max_left 0 _

theorem clamp0100_eq_self {x : ℚ} (h0 : 0 ≤ x) (h1 : x ≤ 100) : clamp0100 x = x := by
  unfold clamp0100
  rw [min_eq_right h1, max_eq_right h0]

theorem round1_intCast (n : ℤ) : round1 ((n : ℚ) / 10) = (n : ℚ) / 10 := by
  unfold round1
  rw [div_mul_cancel₀ _ (by norm_num : (10:ℚ) ≠ 0), round_intCast]

theorem clamp0100_le (x : ℚ) : clamp0100 x ≤ 100 :=
  max_le (by norm_num) (min_le_left 100 x)

theorem round1_bounds {x : ℚ} (h0 : 0 ≤ x) (h1 : x ≤ 100) :
    0 ≤ round1 x ∧ round1 x ≤ 100 := by
  have hfloor : round (x * 10) = ⌊x * 10 + 1 / 2⌋ := round_eq (x * 10)
  have hlo : (0 : ℤ) ≤ round (x * 10) := by
    rw [hfloor]
    rw [Int.le_floor]
    push_cast
    linarith
  have hhi : round (x * 10) ≤ 1000 := by
    have : round (x * 10) < 1001 := by
      rw [hfloor, Int.floor_lt]
      push_cast
      linarith
    omega
  constructor
  · unfold round1
    positivity
  · unfold round1
    rw [div_le_iff₀ (by norm_num : (0:ℚ) < 10)]
    exact_mod_cast hhi

/-- C3 helper: the computed mood index always lies in `[0, 100]`. -/
theorem moodIndex_mem (zt zb : ℕ) (p : ℚ) :
    0 ≤ moodIndex zt zb p ∧ moodIndex zt zb p ≤ 100 := by
  unfold moodIndex
  exact round1_bounds (clamp0100_nonneg _) (clamp0100_le _)

/-! ## Claims C1, C3, C5 -/

/-- C1 counterexample: with `Z = 10`, `B = 10`, `P = 0` the code computes
mood `27` (fried rate is a percentage, `50`, weighted by `0.5`), but the
spec's literal formula `B/(Z+B)*50*0.5` gives `39.5`. -/
theorem mood_spec_formula_counterexample :
    moodIndex 10 10 0 = 27 ∧ specMoodC1 10 10 0 = 79 / 2 ∧
      moodIndex 10 10 0 ≠ specMoodC1 10 10 0 := by
  have hcode : moodIndex 10 10 0 = 27 := by
    unfold moodIndex friedRate
    norm_num
    rw [clamp0100_eq_self (by norm_num) (by norm_num),
      show (27 : ℚ) = ((270 : ℤ) : ℚ) / 10 by norm_num, round1_intCast]
  have hspec : specMoodC1 10 10 0 = 79 / 2 := by
    unfold specMoodC1
    norm_num
    rw [clamp0100_eq_self (by norm_num) (by norm_num)]
  refine ⟨hcode, hspec, ?_⟩
  rw [hcode, hspec]
  norm_num

/-- C1 (amended): for every limit-up count `Z`, fried-board count `B` and
prior-day premium `P`, the mood index equals
`clamp(50 + Z/5 - B/(Z+B)*100*0.5 + P*2, 0, 100)` rounded to one decimal
(fried term `0` when `Z+B = 0`). -/
theorem mood_formula_amended (zt zb : ℕ) (p : ℚ) :
    moodIndex zt zb p = specMoodAmendedC1 zt zb p := by
  unfold moodIndex specMoodAmendedC1 friedRate
  rcases Nat.eq_zero_or_pos (zt + zb) with h | h
  · obtain ⟨h1, h2⟩ := Nat.add_eq_zero.mp h
    subst h1; subst h2
    norm_num
  · have hne : zt + zb ≠ 0 := Nat.pos_iff_ne_zero.mp h
    rw [if_pos h, if_neg hne]

/-- C3: for all inputs (including extreme ones such as `Z = 100000`, `B = 0`
and arbitrary premium values), the persisted mood index lies in `[0, 100]`. -/
theorem mood_index_bounded (zt zb : ℕ) (p : ℚ) :
    0 ≤ moodIndex zt zb p ∧ moodIndex zt zb p ≤ 100 :=
  moodIndex_mem zt zb p

/-- C5: trend is `"up"` exactly when the new mood exceeds the previous mood
by more than the `0.5` band, `"down"` exactly when it is below by more than
the band, `"flat"` exactly when `|mood - prev| ≤ 0.5`, and `"flat"` when no
prior record exists. -/
theorem trend_hysteresis (p m : ℚ) :
    (computeTrend (some p) m = "up" ↔ p + 0.5 < m) ∧
    (computeTrend (some p) m = "down" ↔ m < p - 0.5) ∧
    (computeTrend (some p) m = "flat" ↔ |m - p| ≤ 0.5) ∧
    computeTrend none m = "flat" := by
  simp only [computeTrend]
  split_ifs with h1 h2
  · refine ⟨⟨fun _ => h1, fun _ => rfl⟩, ⟨?_, ?_⟩, ⟨?_, ?_⟩, trivial⟩
    · intro hc; exact absurd hc (by decide)
    · intro hm; linarith
    · intro hc; exact absurd hc (by decide)
    · intro hm
      rw [abs_le] at hm
      linarith [hm.2]
  · refine ⟨⟨?_, ?_⟩, ⟨fun _ => h2, fun _ => rfl⟩, ⟨?_, ?_⟩, trivial⟩
    · intro hc; exact absurd hc (by decide)
    · intro hm; linarith
    · intro hc; exact absurd hc (by decide)
    · intro hm
      rw [abs_le] at hm
      linarith [hm.1]
  · refine ⟨⟨?_, ?_⟩, ⟨?_, ?_⟩, ⟨fun _ => ?_, fun _ => rfl⟩, trivial⟩
    · intro hc; exact absurd hc (by decide)
    · intro hm; linarith
    · intro hc; exact absurd hc (by decide)
    · intro hm; linarith
    · rw [abs_le]
      constructor <;> linarith

/-! ## Claims C2, C4 -/

theorem countSig_zero_no_match {st : AgentState} {ty msg : String}
    (h0 : countSig st ty msg = 0) :
    ∀ s ∈ st.signals, ¬(s.type = ty ∧ s.message = msg) := by
  intro s hs hsm
  have hnil : st.signals.filter (fun s => decide (s.type = ty ∧ s.message = msg)) = [] :=
    List.length_eq_zero.mp h0
  have hmem : s ∈ st.signals.filter (fun s => decide (s.type = ty ∧ s.message = msg)) :=
    List.mem_filter.mpr ⟨hs, by simpa using hsm⟩
  rw [hnil] at hmem
  exact absurd hmem (List.not_mem_nil s)

theorem createSignal_hit (st : AgentState) (now : ℤ) (ty lvl msg : String)
    (h : ∃ s ∈ st.signals, dedupMatches ty msg (now - 600) s) :
    createSignal st now ty lvl msg = st := by
  unfold createSignal
  rw [if_pos h]

theorem createSignal_miss (st : AgentState) (now : ℤ) (ty lvl msg : String)
    (h : ¬ ∃ s ∈ st.signals, dedupMatches ty msg (now - 600) s) :
    createSignal st now ty lvl msg =
      { signals := st.signals ++ [⟨ty, lvl, msg, now⟩]
        broadcasts := st.broadcasts ++ [⟨ty, lvl, msg, now⟩]
        escalations :=
          if lvl = "critical" ∨ lvl = "warning" then st.escalations ++ [⟨ty, lvl, msg, now⟩]
          else st.escalations } := by
  unfold createSignal
  rw [if_neg h]

/-- C2: two `_create_signal` calls with the same `(type, message)` within the
10-minute dedup window persist exactly one record, the second call being a
complete no-op (no new persistence, broadcast or escalation); a call with the
same pair after the window elapses persists a second record. -/
theorem signal_dedup_window (st : AgentState) (ty lvl lvl2 lvl3 msg : String)
    (t1 t2 t3 : ℤ) (h0 : countSig st ty msg = 0) (h12 : t2 - t1 ≤ 600)
    (h13 : 600 < t3 - t1) :
    createSignal (createSignal st t1 ty lvl msg) t2 ty lvl2 msg =
        createSignal st t1 ty lvl msg ∧
    countSig (createSignal st t1 ty lvl msg) ty msg = 1 ∧
    countSig (createSignal (createSignal st t1 ty lvl msg) t3 ty lvl3 msg) ty msg = 2 := by
  have hnone := countSig_zero_no_match h0
  have hno1 : ¬ ∃ s ∈ st.signals, dedupMatches ty msg (t1 - 600) s := by
    rintro ⟨s, hs, hm⟩
    exact hnone s hs ⟨hm.1, hm.2.1⟩
  have hst1 := createSignal_miss st t1 ty lvl msg hno1
  have hsig1_mem : (⟨ty, lvl, msg, t1⟩ : SignalRec) ∈ (createSignal st t1 ty lvl msg).signals := by
    rw [hst1]
    simp
  have hfilter0 : st.signals.filter (fun s => decide (s.type = ty ∧ s.message = msg)) = [] :=
    List.length_eq_zero.mp h0
  have hcount1 : countSig (createSignal st t1 ty lvl msg) ty msg = 1 := by
    rw [hst1]
    unfold countSig
    simp only [List.filter_append, hfilter0]
    simp
  refine ⟨?_, hcount1, ?_⟩
  · exact createSignal_hit _ _ _ _ _
      ⟨⟨ty, lvl, msg, t1⟩, hsig1_mem, rfl, rfl, show t2 - 600 ≤ t1 by omega⟩
  · have hno3 : ¬ ∃ s ∈ (createSignal st t1 ty lvl msg).signals,
        dedupMatches ty msg (t3 - 600) s := by
      rw [hst1]
      rintro ⟨s, hs, hm⟩
      simp only [List.mem_append, List.mem_singleton] at hs
      rcases hs with hs | hs
      · exact hnone s hs ⟨hm.1, hm.2.1⟩
      · subst hs
        have h3 : t3 - 600 ≤ t1 := hm.2.2
        omega
    rw [createSignal_miss _ _ _ _ _ hno3]
    unfold countSig
    simp only [hst1, List.filter_append, hfilter0]
    simp

/-- C2 witness at concrete inputs: `t1 = 0`, `t2 = 30` (inside the window),
`t3 = 601` (outside the window). -/
theorem signal_dedup_window_witness :
    countSig emptyAgent "sentiment_spike" "m" = 0 ∧ (30 : ℤ) - 0 ≤ 600 ∧ (600 : ℤ) < 601 - 0 ∧
    (createSignal (createSignal emptyAgent 0 "sentiment_spike" "warning" "m") 30
        "sentiment_spike" "warning" "m" =
      createSignal emptyAgent 0 "sentiment_spike" "warning" "m" ∧
    countSig (createSignal emptyAgent 0 "sentiment_spike" "warning" "m")
        "sentiment_spike" "m" = 1 ∧
    countSig (createSignal (createSignal emptyAgent 0 "sentiment_spike" "warning" "m") 601
        "sentiment_spike" "warning" "m") "sentiment_spike" "m" = 2) :=
  ⟨by decide, by decide, by decide,
    signal_dedup_window emptyAgent "sentiment_spike" "warning" "warning" "warning" "m"
      0 30 601 (by decide) (by decide) (by decide)⟩

theorem fmt1_85 : fmt1 85 = "85.0" := by
  unfold fmt1
  rw [show ((85 : ℚ) * 10) = ((850 : ℤ) : ℚ) by norm_num, round_intCast]
  rfl

theorem fmt1_86 : fmt1 86 = "86.0" := by
  unfold fmt1
  rw [show ((86 : ℚ) * 10) = ((860 : ℤ) : ℚ) by norm_num, round_intCast]
  rfl

theorem analyze_ruleA_only (st : AgentState) (now : ℤ) (m : ℚ) (hm : 80 < m) :
    analyze st now (some ⟨m, 0, "flat"⟩) [] =
      createSignal st now "sentiment_spike" "warning"
        ("Market is Overheating! Mood Index: " ++ fmt1 m) := by
  simp only [analyze]
  rw [if_pos hm]
  rw [if_neg (by norm_num : ¬ (30 : ℚ) < 0)]
  rw [if_neg (show ¬(("flat" : String) = "up" ∧ m < 50) from fun hc => absurd hc.1 (by decide))]
  simp only [List.filter_nil, List.length_nil]
  norm_num

/-- C4 counterexample: a poll with mood `85` creates a `sentiment_spike`
signal, and a second poll 30 seconds later with mood `86` creates a SECOND
signal, because the dedup key is the literal message text and the formatted
mood (`85.0` vs `86.0`) makes the messages differ. -/
theorem dedup_mood_change_counterexample :
    ((analyze (analyze emptyAgent 0 (some ⟨85, 0, "flat"⟩) []) 30
        (some ⟨86, 0, "flat"⟩) []).signals).length = 2 := by
  rw [analyze_ruleA_only emptyAgent 0 85 (by norm_num),
    analyze_ruleA_only _ 30 86 (by norm_num), fmt1_85, fmt1_86]
  decide

/-- C4 (amended): within the dedup window a second poll suppresses a new
signal only when it reproduces the identical message text; with the mood
changed from `85` to `86` the message differs and a second signal is
created, while a second poll with mood `85` again is a no-op. -/
theorem dedup_literal_message (st1 : AgentState) :
    st1 = analyze emptyAgent 0 (some ⟨85, 0, "flat"⟩) [] →
    ((analyze st1 30 (some ⟨86, 0, "flat"⟩) []).signals).length = 2 ∧
      analyze st1 30 (some ⟨85, 0, "flat"⟩) [] = st1 := by
  intro h
  subst h
  rw [analyze_ruleA_only emptyAgent 0 85 (by norm_num),
    analyze_ruleA_only _ 30 86 (by norm_num), analyze_ruleA_only _ 30 85 (by norm_num),
    fmt1_85, fmt1_86]
  exact ⟨by decide, by decide⟩

/-- C4 amended-claim witness at the concrete first-poll state. -/
theorem dedup_literal_message_witness :
    analyze emptyAgent 0 (some ⟨85, 0, "flat"⟩) [] =
        analyze emptyAgent 0 (some ⟨85, 0, "flat"⟩) [] ∧
    (((analyze (analyze emptyAgent 0 (some ⟨85, 0, "flat"⟩) []) 30
        (some ⟨86, 0, "flat"⟩) []).signals).length = 2 ∧
      analyze (analyze emptyAgent 0 (some ⟨85, 0, "flat"⟩) []) 30
          (some ⟨85, 0, "flat"⟩) [] = analyze emptyAgent 0 (some ⟨85, 0, "flat"⟩) []) :=
  ⟨rfl, dedup_literal_message (analyze emptyAgent 0 (some ⟨85, 0, "flat"⟩) []) rfl⟩

/-! ## Claims C6, C7, C8, C9, C10 -/

/-- C6: a raw category label absent from both mapping tables resolves to the
default internal type `"rocket"` and the default severity `"low"`; the
classification is a total function, so no row is dropped or left unset. -/
theorem classification_defaults (raw : String)
    (ht : TYPE_MAP.lookup raw = none) (hs : SEVERITY_MAP.lookup raw = none) :
    internalTypeOf raw = "rocket" ∧ severityOf raw = "low" := by
  unfold internalTypeOf severityOf
  rw [ht, hs]
  exact ⟨rfl, rfl⟩

/-- C6 witness at a concrete unmapped raw category. -/
theorem classification_defaults_witness :
    TYPE_MAP.lookup "神秘类型" = none ∧ SEVERITY_MAP.lookup "神秘类型" = none ∧
    (internalTypeOf "神秘类型" = "rocket" ∧ severityOf "神秘类型" = "low") :=
  ⟨by decide, by decide, classification_defaults "神秘类型" (by decide) (by decide)⟩

/-- C7: when the wrapped call fails and a prior cache entry exists for the
same key, the cached value is returned (fresh or stale); and a fetch failure
inside `get_market_sentiment` yields the explicit degraded payload through
the cache wrapper, never an exception. -/
theorem provider_fallback (V E : Type) (ttl ts now now2 : ℤ) (d : V) (e : E)
    (emsg : String) (prev : Option ℚ) :
    (ttlCall ttl (some (d, ts)) now (Except.error e)).1 = Except.ok d ∧
    getMarketSentiment (Except.error emsg) prev = degradedSentiment emsg ∧
    (ttlCall 60 none now2
        (Except.ok (getMarketSentiment (Except.error emsg) prev) : Except String SentimentOut)).1 =
      Except.ok (degradedSentiment emsg) := by
  refine ⟨?_, rfl, rfl⟩
  simp only [ttlCall]
  split_ifs with h
  · rfl
  · rfl

/-- C9 counterexample: with an empty list cached at time `0`, a call at time
`10` (within the 60s TTL) does NOT re-invoke the wrapped function and
returns the cached empty list, and a failing call at time `100` (expired) is
served the stale empty list instead of propagating the exception — the
cache stores `(data, timestamp)` tuples and the presence test sees the
tuple, which is truthy even when the data is falsy. -/
theorem falsy_cache_counterexample :
    (ttlCall 60 (some (([] : List ℕ), 0)) 10 (Except.error "boom")).2.2 = false ∧
    (ttlCall 60 (some (([] : List ℕ), 0)) 10 (Except.error "boom")).1 = Except.ok [] ∧
    (ttlCall 60 (some (([] : List ℕ), 0)) 100 (Except.error "boom")).1 = Except.ok [] :=
  ⟨rfl, rfl, rfl⟩

/-- C9 (amended): a falsy cached result behaves like any other cache entry:
within the TTL it is returned without invoking the wrapped function, and on
a failing invocation after expiry it is served stale, the exception not
reaching the caller. -/
theorem falsy_cache_entry_regular (ts now : ℤ) (e : String) :
    (now - ts < 60 → ttlCall 60 (some (([] : List ℕ), ts)) now (Except.error e) =
        (Except.ok [], some ([], ts), false)) ∧
    (60 ≤ now - ts → ttlCall 60 (some (([] : List ℕ), ts)) now (Except.error e) =
        (Except.ok [], some ([], ts), true)) := by
  constructor
  · intro h
    simp only [ttlCall]
    rw [if_pos h]
  · intro h
    simp only [ttlCall]
    rw [if_neg (show ¬(now - ts < 60) by omega)]
    rfl

/-- C9 amended-claim witness: a fresh hit at `now = 10` and a stale serve at
`now = 100`, both for a cached empty list stored at time `0`. -/
theorem falsy_cache_entry_regular_witness :
    ((10 : ℤ) - 0 < 60 ∧ ttlCall 60 (some (([] : List ℕ), 0)) 10 (Except.error "boom") =
        (Except.ok [], some ([], 0), false)) ∧
    ((60 : ℤ) ≤ 100 - 0 ∧ ttlCall 60 (some (([] : List ℕ), 0)) 100 (Except.error "boom") =
        (Except.ok [], some ([], 0), true)) :=
  ⟨⟨by decide, (falsy_cache_entry_regular 0 10 "boom").1 (by decide)⟩,
   ⟨by decide, (falsy_cache_entry_regular 0 100 "boom").2 (by decide)⟩⟩

/-- C8: a cycle that raises a non-cancellation exception lets the loop
continue, and a script free of cancellations runs to completion: every cycle
is executed, none terminates the loop early. -/
theorem loop_survives_errors (s : String) (script : List CycleOutcome)
    (h : CycleOutcome.cancelled ∉ script) :
    loopStep (CycleOutcome.err s) = true ∧ loopRun script = script.length := by
  refine ⟨rfl, ?_⟩
  induction script with
  | nil => rfl
  | cons o rest ih =>
    have ho : o ≠ CycleOutcome.cancelled := fun hc => h (hc ▸ List.mem_cons_self o rest)
    have hrest : CycleOutcome.cancelled ∉ rest := fun hc => h (List.mem_cons_of_mem o hc)
    have hstep : loopStep o = true := by
      cases o
      · rfl
      · rfl
      · exact absurd rfl ho
    rw [loopRun, hstep, if_pos rfl, ih hrest]
    simp [Nat.add_comm]

/-- C8 witness: a three-cycle script whose middle cycle raises. -/
theorem loop_survives_errors_witness :
    CycleOutcome.cancelled ∉ [CycleOutcome.ok, CycleOutcome.err "boom", CycleOutcome.ok] ∧
    (loopStep (CycleOutcome.err "boom") = true ∧
      loopRun [CycleOutcome.ok, CycleOutcome.err "boom", CycleOutcome.ok] =
        [CycleOutcome.ok, CycleOutcome.err "boom", CycleOutcome.ok].length) :=
  ⟨by decide, loop_survives_errors "boom" _ (by decide)⟩

instance : DecidableRel (fun a b : Alert => b.ts ≤ a.ts) :=
  fun a b => inferInstanceAs (Decidable (b.ts ≤ a.ts))

instance : IsTotal Alert (fun a b => b.ts ≤ a.ts) := ⟨fun a b => le_total b.ts a.ts⟩

instance : IsTrans Alert (fun a b => b.ts ≤ a.ts) := ⟨fun _ _ _ h1 h2 => le_trans h2 h1⟩

theorem sortTsDesc_sorted (l : List Alert) :
    (sortTsDesc l).Sorted (fun a b => b.ts ≤ a.ts) :=
  List.sorted_insertionSort _ l

theorem filterMap_goodRows (fc : Option (List String)) (rows : List RawChange) :
    (goodRows rows).filterMap (rowToAlert fc) = rows.filterMap (rowToAlert fc) := by
  induction rows with
  | nil => rfl
  | cons r rest ih =>
    cases r with
    | bad =>
      have hg : goodRows (RawChange.bad :: rest) = goodRows rest := by
        simp [goodRows, List.filter_cons]
      rw [hg, ih]
      rfl
    | good g =>
      have hg : goodRows (RawChange.good g :: rest) = RawChange.good g :: goodRows rest := by
        simp [goodRows, List.filter_cons]
      rw [hg, List.filterMap_cons, List.filterMap_cons, ih]

/-- C10: `scan_all` never raises — a fetch failure yields exactly one
returned element with type `"error"` and severity `"low"` (whenever the scan
reaches the fetch, i.e. except for the early empty-watchlist return), a
malformed row is skipped without dropping the rest of the batch, and the
returned list is always sorted by `ts` descending. -/
theorem scan_all_resilient (mode : FilterMode) (watch leaders : List String)
    (rows : List RawChange) (e : String) (now : ℤ)
    (fetch : Except String (List RawChange)) :
    (¬(mode = FilterMode.watchlist ∧ watch = []) →
      scan_all mode watch leaders (Except.error e) now = [errorAlert e now]) ∧
    (errorAlert e now).type = "error" ∧ (errorAlert e now).severity = "low" ∧
    scan_all mode watch leaders (Except.ok rows) now =
      scan_all mode watch leaders (Except.ok (goodRows rows)) now ∧
    (scan_all mode watch leaders fetch now).Sorted (fun a b => b.ts ≤ a.ts) := by
  refine ⟨?_, rfl, rfl, ?_, ?_⟩
  · intro h
    unfold scan_all
    rw [if_neg h]
    rfl
  · unfold scan_all
    split_ifs with hcond
    · rfl
    · exact congrArg sortTsDesc (filterMap_goodRows _ rows).symm
  · unfold scan_all
    split_ifs with hcond
    · exact List.sorted_nil
    · exact sortTsDesc_sorted _

/-- C10 witness: an all-mode scan with a failing fetch and a batch containing
a malformed row. -/
theorem scan_all_resilient_witness :
    ¬(FilterMode.all = FilterMode.watchlist ∧ ([] : List String) = []) ∧
    scan_all FilterMode.all [] [] (Except.error "x") 0 = [errorAlert "x" 0] ∧
    scan_all FilterMode.all [] [] (Except.ok [RawChange.bad]) 0 =
      scan_all FilterMode.all [] [] (Except.ok (goodRows [RawChange.bad])) 0 ∧
    (scan_all FilterMode.all [] [] (Except.error "x") 0).Sorted (fun a b => b.ts ≤ a.ts) :=
  ⟨by decide,
   (scan_all_resilient FilterMode.all [] [] [RawChange.bad] "x" 0 (Except.error "x")).1
     (by decide),
   (scan_all_resilient FilterMode.all [] [] [RawChange.bad] "x" 0 (Except.error "x")).2.2.2.1,
   (scan_all_resilient FilterMode.all [] [] [RawChange.bad] "x" 0 (Except.error "x")).2.2.2.2⟩
